import Mathlib

/-!
Verification of the per-sample trimming processor and report writers of
AdapterRemoval (`src/main_adapter_rm.cc`, `src/userconfig.h`).

The embedding translates the processing paths of `se_reads_processor::process`,
`pe_reads_processor::process`, `process_collapsed_read`,
`write_trimming_settings` and `write_demux_settings` into pure Lean functions.
Components of the repository that are declared but not implemented under the
provided sources (the `fastq` record operations, the acceptance predicates of
`userconfig`, the alignment-engine entry points) are modelled from the
specification; each such definition carries a doc comment saying so.  The
alignment search itself (`align_single_ended_sequence`,
`align_paired_ended_sequences`) and the consensus builder
(`collapse_paired_ended_sequences`) are passed to the processors as oracle
parameters: no claim below depends on their internals, only on the branching
the processors perform on their results.
-/

namespace AdapterRemoval

/-- User configuration fields of `userconfig.h` that the processing paths read.
The mismatch threshold (a C++ `double`) is represented exactly as the ratio
`mismatch_threshold_num / mismatch_threshold_den`. -/
structure Userconfig where
  paired_ended_mode : Bool
  interleaved_output : Bool
  mate_separator : Char
  min_genomic_length : Nat
  max_genomic_length : Nat
  min_adapter_overlap : Nat
  min_alignment_length : Nat
  mismatch_threshold_num : Nat
  mismatch_threshold_den : Nat
  trim_by_quality : Bool
  low_quality_score : Nat
  trim_ambiguous_bases : Bool
  max_ambiguous_bases : Nat
  collapse : Bool

/-- Modelled from the spec: a FASTQ read is an identifier string, a nucleotide
sequence over A/C/G/T/N, and a Phred-quality vector of the same length
(`fastq.h` is not part of the provided sources). -/
structure Fastq where
  header : String
  sequence : List Char
  quality : List Nat

/-- Length of a read, i.e. the length of its nucleotide sequence. -/
def Fastq.length (r : Fastq) : Nat := r.sequence.length

/-- Modelled from the spec: complement of an IUPAC base (A/T and C/G swap,
anything else is N). -/
def complementBase (c : Char) : Char :=
  if c = 'A' then 'T'
  else if c = 'T' then 'A'
  else if c = 'C' then 'G'
  else if c = 'G' then 'C'
  else 'N'

/-- Modelled from the spec: `fastq::reverse_complement` reverses the sequence,
complements each base, and reverses the quality vector. -/
def reverse_complement (r : Fastq) : Fastq :=
  { r with sequence := (r.sequence.map complementBase).reverse
         , quality := r.quality.reverse }

/-- Modelled from the spec: `fastq::add_prefix_to_header` prepends a label such
as "M_" or "MT_" to the read identifier. -/
def addPrefixToHeader (p : String) (r : Fastq) : Fastq :=
  { r with header := p ++ r.header }

/-- Keep only the first `k` bases of a read. -/
def keepFirst (k : Nat) (r : Fastq) : Fastq :=
  { r with sequence := r.sequence.take k, quality := r.quality.take k }

/-- Remove the first `k` bases of a read. -/
def dropFirst (k : Nat) (r : Fastq) : Fastq :=
  { r with sequence := r.sequence.drop k, quality := r.quality.drop k }

/-- Modelled from the spec: a terminal base is consumed by quality/N trimming
when it is `N` (if `trim_ambiguous_bases`) or its Phred score is at most
`low_quality_score` (if `trim_by_quality`). -/
def isUnwantedBase (cfg : Userconfig) (b : Char) (q : Nat) : Bool :=
  (cfg.trim_ambiguous_bases && (b == 'N'))
    || (cfg.trim_by_quality && decide (q ≤ cfg.low_quality_score))

/-- Consume unwanted bases from the front of a sequence/quality pair, returning
the number consumed together with the remainders. -/
def trimFront (cfg : Userconfig) : List Char → List Nat → Nat × List Char × List Nat
  | b :: bs, q :: qs =>
    if isUnwantedBase cfg b q then
      let rest := trimFront cfg bs qs
      (rest.1 + 1, rest.2)
    else
      (0, b :: bs, q :: qs)
  | bs, qs => (0, bs, qs)

/-- Modelled from the spec: `userconfig::trim_sequence_by_quality_if_enabled`
trims unwanted bases from each end of the read (when the corresponding options
are enabled) and returns the pair (bases removed at the left, bases removed at
the right) together with the trimmed read. -/
def trim_sequence_by_quality_if_enabled (cfg : Userconfig) (r : Fastq) :
    (Nat × Nat) × Fastq :=
  let front := trimFront cfg r.sequence r.quality
  let back := trimFront cfg front.snd.fst.reverse front.snd.snd.reverse
  ((front.fst, back.fst),
   { r with sequence := back.snd.fst.reverse, quality := back.snd.snd.reverse })

/-- Modelled from the spec: `userconfig::is_acceptable_read` holds when
`min_genomic_length ≤ |read| ≤ max_genomic_length` and the number of ambiguous
bases (N) is at most `max_ambiguous_bases`. -/
def is_acceptable_read (cfg : Userconfig) (r : Fastq) : Bool :=
  decide (cfg.min_genomic_length ≤ r.length)
    && decide (r.length ≤ cfg.max_genomic_length)
    && decide (r.sequence.count 'N' ≤ cfg.max_ambiguous_bases)

/-- Alignment summary produced by the alignment engine (spec data model):
signed shift of read 2 relative to read 1, score, overlap length, mismatch and
ambiguous-base counts, and the index of the adapter pair used. -/
structure AlignmentInfo where
  shift : Int
  score : Int
  length : Nat
  n_mismatches : Nat
  n_ambiguous : Nat
  adapter_id : Nat

/-- Ceiling of `mismatch_threshold * n` where the threshold is the exact ratio
`num/den` held in the configuration. -/
def mismatchCap (cfg : Userconfig) (n : Nat) : Nat :=
  (cfg.mismatch_threshold_num * n + cfg.mismatch_threshold_den - 1)
    / cfg.mismatch_threshold_den

/-- Modelled from the spec: `userconfig::is_good_alignment` /
`evaluate_alignment`.  An alignment is good when it is non-empty ("not enough
bases" yields `not_aligned`; the null alignment has length 0), in single-end
mode covers at least `min_adapter_overlap` bases, has a non-negative score
(negative scores yield `poor_alignment`), and has at most
`⌈mismatch_threshold * (length − n_ambiguous)⌉` mismatches. -/
def is_good_alignment (cfg : Userconfig) (a : AlignmentInfo) : Bool :=
  decide (0 < a.length)
    && (cfg.paired_ended_mode || decide (cfg.min_adapter_overlap ≤ a.length))
    && decide (0 ≤ a.score)
    && decide (a.n_mismatches ≤ mismatchCap cfg (a.length - a.n_ambiguous))

/-- Modelled from the spec: `userconfig::is_alignment_collapsible` holds when
collapsing is enabled and the overlap is at least `min_alignment_length`
(comment in `userconfig.h`: "If true, PE reads overlapping at least
min_alignment_length are collapsed"). -/
def is_alignment_collapsible (cfg : Userconfig) (a : AlignmentInfo) : Bool :=
  cfg.collapse && decide (cfg.min_alignment_length ≤ a.length)

/-- Modelled from the spec: `truncate_single_ended_sequence` removes the bases
from position `shift` onwards after a good single-end alignment. -/
def truncate_single_ended_sequence (a : AlignmentInfo) (r : Fastq) : Fastq :=
  keepFirst a.shift.toNat r

/-- Modelled from the spec: `truncate_paired_ended_sequences` truncates read 1
to `shift + length` bases when that is shorter than `|read1|`, truncates the
(reverse-complemented) read 2 on its left by `−shift` bases when `shift < 0`,
and returns the number of mates whose truncation actually removed bases
(0, 1, or 2) together with the truncated reads. -/
def truncate_paired_ended_sequences (a : AlignmentInfo) (r1 r2 : Fastq) :
    Nat × Fastq × Fastq :=
  let truncated1 : Bool := decide (a.shift + (a.length : Int) < (r1.length : Int))
  let out1 := if truncated1 then keepFirst (a.shift + (a.length : Int)).toNat r1 else r1
  let truncated2 : Bool := decide (a.shift < 0)
  let out2 := if truncated2 then dropFirst (-a.shift).toNat r2 else r2
  ((if truncated1 then 1 else 0) + (if truncated2 then 1 else 0), out1, out2)

/-- The read classes of the per-length statistics histogram
(`rt_mate_1 … rt_discarded` of `statistics.h`, as used by
`write_trimming_settings`). -/
inductive ReadType
  | rt_mate_1
  | rt_mate_2
  | rt_singleton
  | rt_collapsed
  | rt_collapsed_truncated
  | rt_discarded
deriving DecidableEq

open ReadType

/-- The statistics counters of one per-worker `statistics` instance.  The
per-adapter tallies and the length histogram are total functions (the C++
vectors grow on demand). -/
structure Statistics where
  records : Nat
  unaligned_reads : Nat
  well_aligned_reads : Nat
  discard1 : Nat
  discard2 : Nat
  keep1 : Nat
  keep2 : Nat
  number_of_reads_with_adapter : Nat → Nat
  number_of_full_length_collapsed : Nat
  number_of_truncated_collapsed : Nat
  total_number_of_good_reads : Nat
  total_number_of_nucleotides : Nat
  read_lengths : Nat → ReadType → Nat

/-- A freshly created `statistics` object: all counters zero. -/
def zeroStats : Statistics :=
  ⟨0, 0, 0, 0, 0, 0, 0, fun _ => 0, 0, 0, 0, 0, fun _ _ => 0⟩

/-- `statistics::inc_length_count`: bump the histogram cell for the given
read class and length. -/
def inc_length_count (rt : ReadType) (len : Nat) (s : Statistics) : Statistics :=
  { s with read_lengths := fun l c =>
      if l = len ∧ c = rt then s.read_lengths l c + 1 else s.read_lengths l c }

/-- Bump the per-adapter tally for adapter `id` by `n`. -/
def incAdapter (id n : Nat) (s : Statistics) : Statistics :=
  { s with number_of_reads_with_adapter := fun i =>
      if i = id then s.number_of_reads_with_adapter i + n
      else s.number_of_reads_with_adapter i }

/-- Modelled from the spec: `statistics::operator+=` is pointwise addition of
all counters (the reduce step of the statistics sink). -/
def statsAdd (s t : Statistics) : Statistics :=
  ⟨s.records + t.records,
   s.unaligned_reads + t.unaligned_reads,
   s.well_aligned_reads + t.well_aligned_reads,
   s.discard1 + t.discard1,
   s.discard2 + t.discard2,
   s.keep1 + t.keep1,
   s.keep2 + t.keep2,
   fun i => s.number_of_reads_with_adapter i + t.number_of_reads_with_adapter i,
   s.number_of_full_length_collapsed + t.number_of_full_length_collapsed,
   s.number_of_truncated_collapsed + t.number_of_truncated_collapsed,
   s.total_number_of_good_reads + t.total_number_of_good_reads,
   s.total_number_of_nucleotides + t.total_number_of_nucleotides,
   fun l c => s.read_lengths l c + t.read_lengths l c⟩

/-- An output chunk: the reads appended to it, plus the `nreads` count passed
to `fastq_output_chunk::add`. -/
structure OutputChunk where
  reads : List Fastq
  nreads : Nat

/-- An empty output chunk. -/
def emptyChunk : OutputChunk := ⟨[], 0⟩

/-- `fastq_output_chunk::add`: append a read, counting it `count` times. -/
def OutputChunk.add (c : OutputChunk) (r : Fastq) (count : Nat) : OutputChunk :=
  ⟨c.reads ++ [r], c.nreads + count⟩

/-- Errors surfaced by the per-pair processing (`fastq::validate_paired_reads`
throws on a mate-pair mismatch). -/
inductive ProcErr
  | matePairMismatch

/-- The part of a read identifier before the first occurrence of the mate
separator character. -/
def headerStem (sep : Char) (h : String) : List Char :=
  h.toList.takeWhile (fun c => c ≠ sep)

/-- Modelled from the spec: `fastq::validate_paired_reads` validates mate-pair
header consistency using the configured mate separator and fails fast on a
mismatch; we model the check as agreement of the identifiers up to the first
separator. -/
def validate_paired_reads (sep : Char) (r1 r2 : Fastq) : Except ProcErr Unit :=
  if headerStem sep r1.header = headerStem sep r2.header then Except.ok ()
  else Except.error ProcErr.matePairMismatch

/-- `process_collapsed_read` of `main_adapter_rm.cc`: trim the consensus read,
label its header `M_`/`MT_` according to whether trimming removed bases, then
either keep it (collapsed or collapsed-truncated output and counters) or
discard it.  The first component of the result is the final value of the
`collapsed_read` reference argument. -/
def process_collapsed_read (cfg : Userconfig) (stats : Statistics)
    (collapsedRead : Fastq)
    (out_collapsed out_collapsed_truncated out_discarded : OutputChunk) :
    Fastq × Statistics × OutputChunk × OutputChunk × OutputChunk :=
  let tr := trim_sequence_by_quality_if_enabled cfg collapsedRead
  let wasTrimmed : Bool := decide (tr.fst.fst ≠ 0) || decide (tr.fst.snd ≠ 0)
  let labelled := addPrefixToHeader (if wasTrimmed then "MT_" else "M_") tr.snd
  let readCount := if cfg.paired_ended_mode then 2 else 1
  if is_acceptable_read cfg labelled then
    let stats1 := { stats with
      total_number_of_nucleotides := stats.total_number_of_nucleotides + labelled.length,
      total_number_of_good_reads := stats.total_number_of_good_reads + 1 }
    let stats2 := inc_length_count (if wasTrimmed then rt_collapsed_truncated else rt_collapsed)
        labelled.length stats1
    if wasTrimmed then
      (labelled,
       { stats2 with number_of_truncated_collapsed := stats2.number_of_truncated_collapsed + 1 },
       out_collapsed, out_collapsed_truncated.add labelled readCount, out_discarded)
    else
      (labelled,
       { stats2 with number_of_full_length_collapsed := stats2.number_of_full_length_collapsed + 1 },
       out_collapsed.add labelled readCount, out_collapsed_truncated, out_discarded)
  else
    let stats1 := inc_length_count rt_discarded labelled.length
      { stats with discard1 := stats.discard1 + 1, discard2 := stats.discard2 + 1 }
    (labelled, stats1, out_collapsed, out_collapsed_truncated,
     out_discarded.add labelled readCount)

/-- State carried by `se_reads_processor::process` for one chunk: the
per-worker statistics and the output chunks. -/
structure SEState where
  stats : Statistics
  out_mate_1 : OutputChunk
  out_collapsed : OutputChunk
  out_collapsed_truncated : OutputChunk
  out_discarded : OutputChunk

/-- The tail of the single-end per-read body (after the alignment branch):
quality/N trimming, the acceptance predicate, and routing to the mate-1 or
discarded output. -/
def se_finish (cfg : Userconfig) (st : SEState) (read : Fastq) : SEState :=
  let readt := (trim_sequence_by_quality_if_enabled cfg read).2
  if is_acceptable_read cfg readt then
    { st with
      stats := inc_length_count rt_mate_1 readt.length
        { st.stats with
          keep1 := st.stats.keep1 + 1,
          total_number_of_good_reads := st.stats.total_number_of_good_reads + 1,
          total_number_of_nucleotides := st.stats.total_number_of_nucleotides + readt.length },
      out_mate_1 := st.out_mate_1.add readt 1 }
  else
    { st with
      stats := inc_length_count rt_discarded readt.length
        { st.stats with discard1 := st.stats.discard1 + 1 },
      out_discarded := st.out_discarded.add readt 1 }

/-- The per-read body of `se_reads_processor::process`, with the alignment
engine passed as the oracle `al`. -/
def se_process_read (cfg : Userconfig) (al : Fastq → AlignmentInfo)
    (st : SEState) (read : Fastq) : SEState :=
  let a := al read
  if is_good_alignment cfg a then
    let readt := truncate_single_ended_sequence a read
    let s0 := { st.stats with well_aligned_reads := st.stats.well_aligned_reads + 1 }
    let st1 := { st with stats := incAdapter a.adapter_id 1 s0 }
    if is_alignment_collapsible cfg a then
      let r := process_collapsed_read cfg st1.stats readt
        st1.out_collapsed st1.out_collapsed_truncated st1.out_discarded
      { st1 with stats := r.snd.fst, out_collapsed := r.snd.snd.fst,
                 out_collapsed_truncated := r.snd.snd.snd.fst,
                 out_discarded := r.snd.snd.snd.snd }
    else
      se_finish cfg st1 readt
  else
    se_finish cfg
      { st with stats := { st.stats with unaligned_reads := st.stats.unaligned_reads + 1 } }
      read

/-- State carried by `pe_reads_processor::process` for one chunk. -/
structure PEState where
  stats : Statistics
  out_mate_1 : OutputChunk
  out_mate_2 : OutputChunk
  out_singleton : OutputChunk
  out_collapsed : OutputChunk
  out_collapsed_truncated : OutputChunk
  out_discarded : OutputChunk

/-- The tail of the paired-end per-pair body (source lines 547-593): undo the
reverse complementation of read 2, trim both mates, compute the acceptance
predicate, update the retained-reads/nucleotides counters, and route the mates.
`read2rc` is read 2 still in the reverse-complemented orientation established
at the top of the loop; the first step below is the undo at source line 549.
The nucleotide counter mirrors the source exactly: source line 558 gates the
addition of read 2 nucleotides on `read_1_acceptable`. -/
def pe_route_reads (cfg : Userconfig) (st : PEState) (read1 read2rc : Fastq) :
    PEState :=
  let read2a := reverse_complement read2rc
  let read1t := (trim_sequence_by_quality_if_enabled cfg read1).2
  let read2t := (trim_sequence_by_quality_if_enabled cfg read2a).2
  let acc1 := is_acceptable_read cfg read1t
  let acc2 := is_acceptable_read cfg read2t
  let stats0 := { st.stats with
    total_number_of_nucleotides := st.stats.total_number_of_nucleotides
      + (if acc1 then read1t.length else 0) + (if acc1 then read2t.length else 0),
    total_number_of_good_reads := st.stats.total_number_of_good_reads
      + (if acc1 then 1 else 0) + (if acc2 then 1 else 0) }
  if acc1 && acc2 then
    let om1 := st.out_mate_1.add read1t 1
    { st with
      stats := inc_length_count rt_mate_2 read2t.length
        (inc_length_count rt_mate_1 read1t.length stats0),
      out_mate_1 := if cfg.interleaved_output then om1.add read2t 1 else om1,
      out_mate_2 := if cfg.interleaved_output then st.out_mate_2
                    else st.out_mate_2.add read2t 1 }
  else
    let stats1 := { stats0 with
      keep1 := stats0.keep1 + (if acc1 then 1 else 0),
      keep2 := stats0.keep2 + (if acc2 then 1 else 0),
      discard1 := stats0.discard1 + (if acc1 then 0 else 1),
      discard2 := stats0.discard2 + (if acc2 then 0 else 1) }
    let stats2 := inc_length_count (if acc2 then rt_mate_2 else rt_discarded) read2t.length
      (inc_length_count (if acc1 then rt_mate_1 else rt_discarded) read1t.length stats1)
    let sing1 := if acc1 then st.out_singleton.add read1t 1 else st.out_singleton
    let sing2 := if acc2 then sing1.add read2t 1 else sing1
    let disc1 := if acc1 then st.out_discarded else st.out_discarded.add read1t 1
    let disc2 := if acc2 then disc1 else disc1.add read2t 1
    { st with stats := stats2, out_singleton := sing2, out_discarded := disc2 }

/-- The per-pair body of `pe_reads_processor::process`, with the alignment
engine (`al`) and the consensus builder incl. its RNG (`col`) passed as
oracles.  Mate-pair headers are validated first; a mismatch is an error. -/
def pe_process_pair (cfg : Userconfig) (al : Fastq → Fastq → AlignmentInfo)
    (col : AlignmentInfo → Fastq → Fastq → Fastq)
    (st : PEState) (read1 read2 : Fastq) : Except ProcErr PEState :=
  match validate_paired_reads cfg.mate_separator read1 read2 with
  | Except.error e => Except.error e
  | Except.ok _ =>
    let read2r := reverse_complement read2
    let a := al read1 read2r
    if is_good_alignment cfg a then
      let st1 := { st with stats :=
        { st.stats with well_aligned_reads := st.stats.well_aligned_reads + 1 } }
      let tres := truncate_paired_ended_sequences a read1 read2r
      let st2 := { st1 with stats := incAdapter a.adapter_id tres.fst st1.stats }
      if is_alignment_collapsible cfg a then
        let collapsedRead := col a tres.snd.fst tres.snd.snd
        let r := process_collapsed_read cfg st2.stats collapsedRead
          st2.out_collapsed st2.out_collapsed_truncated st2.out_discarded
        let st3 := { st2 with
          stats := r.snd.fst,
          out_collapsed := r.snd.snd.fst,
          out_collapsed_truncated := r.snd.snd.snd.fst,
          out_discarded := r.snd.snd.snd.snd }
        Except.ok st3
      else
        Except.ok (pe_route_reads cfg st2 tres.snd.fst tres.snd.snd)
    else
      let st1 := { st with stats :=
        { st.stats with unaligned_reads := st.stats.unaligned_reads + 1 } }
      Except.ok (pe_route_reads cfg st1 read1 read2r)

/-- The loop of `pe_reads_processor::process` over the pairs of one chunk; any
validation error aborts the whole chunk. -/
def pe_process_pairs (cfg : Userconfig) (al : Fastq → Fastq → AlignmentInfo)
    (col : AlignmentInfo → Fastq → Fastq → Fastq)
    (st : PEState) : List (Fastq × Fastq) → Except ProcErr PEState
  | [] => Except.ok st
  | p :: rest =>
    match pe_process_pair cfg al col st p.1 p.2 with
    | Except.ok st2 => pe_process_pairs cfg al col st2 rest
    | Except.error e => Except.error e

/-- Counters of `demux_statistics` used by `write_demux_settings`. -/
structure DemuxStatistics where
  unidentified : Nat
  ambiguous : Nat
  barcodes : List Nat

/-- Modelled from the spec: `demux_statistics::total` satisfies
`unidentified + ambiguous + Σ hits == total` (spec invariant 6). -/
def DemuxStatistics.total (s : DemuxStatistics) : Nat :=
  s.unidentified + s.ambiguous + s.barcodes.sum

/-- One data row of the `[Demultiplexing statistics]` table.  The fraction the
source streams as a `double` with three fixed decimals is kept exactly as a
rational. -/
structure DemuxRow where
  name : String
  barcode_1 : String
  barcode_2 : String
  hits : Nat
  fraction : ℚ

/-- A demultiplexing sample: its name and barcode sequences (barcode 2 is the
empty string for single-indexed runs). -/
structure DemuxSample where
  name : String
  barcode_1 : String
  barcode_2 : String

/-- The column-header row of the `[Demultiplexing statistics]` table
(source line 259 of `main_adapter_rm.cc`). -/
def demuxHeader : List String := ["Name", "Barcode_1", "Barcode_2", "Hits", "Fraction"]

/-- The data rows written by `write_demux_settings` (source lines 260-282):
the `unidentified` row, the `ambiguous` row, one row per sample (an empty
barcode 2 prints as `*`), and the totals row, whose fraction the source writes
as the literal `1.0` (printed `1.000` at fixed precision 3). -/
def demuxRows (samples : List DemuxSample) (stats : DemuxStatistics) :
    List DemuxRow :=
  let total := stats.total
  ⟨"unidentified", "NA", "NA", stats.unidentified,
    (stats.unidentified : ℚ) / (total : ℚ)⟩
  :: ⟨"ambiguous", "NA", "NA", stats.ambiguous,
    (stats.ambiguous : ℚ) / (total : ℚ)⟩
  :: ((samples.zip stats.barcodes).map fun p =>
       ⟨p.fst.name, p.fst.barcode_1,
        if p.fst.barcode_2.isEmpty then "*" else p.fst.barcode_2,
        p.snd, (p.snd : ℚ) / (total : ℚ)⟩)
  ++ [⟨"*", "*", "*", total, 1⟩]

/-- The `All` column of one row of the `[Length distribution]` table:
`std::accumulate` over all read classes of that length
(source line 209 of `main_adapter_rm.cc`). -/
def rowAll (s : Statistics) (l : Nat) : Nat :=
  s.read_lengths l rt_mate_1 + s.read_lengths l rt_mate_2
    + s.read_lengths l rt_singleton + s.read_lengths l rt_collapsed
    + s.read_lengths l rt_collapsed_truncated + s.read_lengths l rt_discarded

/-- The sum of the per-read-class values printed in one row of the
`[Length distribution]` table: `Mate1` always, `Mate2` and `Singleton` only in
paired-end mode, `Collapsed` and `CollapsedTruncated` only when collapsing,
`Discarded` always (source lines 211-224). -/
def printedRowSum (cfg : Userconfig) (s : Statistics) (l : Nat) : Nat :=
  s.read_lengths l rt_mate_1
    + (if cfg.paired_ended_mode then
        s.read_lengths l rt_mate_2 + s.read_lengths l rt_singleton else 0)
    + (if cfg.collapse then
        s.read_lengths l rt_collapsed + s.read_lengths l rt_collapsed_truncated else 0)
    + s.read_lengths l rt_discarded

/-- The statistics contents reachable in a run under configuration `cfg`:
a fresh instance, a single-end per-read step (single-end mode), a paired-end
per-pair step (paired-end mode), the per-chunk record count bump, and the
end-of-stream reduction of two per-worker instances. -/
inductive ReachableStats (cfg : Userconfig) : Statistics → Prop
  | init : ReachableStats cfg zeroStats
  | seStep : ∀ (al : Fastq → AlignmentInfo) (st : SEState) (r : Fastq),
      cfg.paired_ended_mode = false → ReachableStats cfg st.stats →
      ReachableStats cfg (se_process_read cfg al st r).stats
  | peStep : ∀ (al : Fastq → Fastq → AlignmentInfo)
      (col : AlignmentInfo → Fastq → Fastq → Fastq)
      (st : PEState) (r1 r2 : Fastq) (st2 : PEState),
      cfg.paired_ended_mode = true → ReachableStats cfg st.stats →
      pe_process_pair cfg al col st r1 r2 = Except.ok st2 →
      ReachableStats cfg st2.stats
  | recordsStep : ∀ (s : Statistics) (n : Nat), ReachableStats cfg s →
      ReachableStats cfg { s with records := s.records + n }
  | reduceStep : ∀ (s t : Statistics), ReachableStats cfg s →
      ReachableStats cfg t → ReachableStats cfg (statsAdd s t)

/-- The trimmed form of a read (second component of
`trim_sequence_by_quality_if_enabled`). -/
def trimmedRead (cfg : Userconfig) (r : Fastq) : Fastq :=
  (trim_sequence_by_quality_if_enabled cfg r).snd

/-- The null alignment: length 0 and score 0. -/
def alNull : AlignmentInfo := ⟨0, 0, 0, 0, 0, 0⟩

/-- An alignment oracle that never finds an adapter overlap. -/
def alignNonePE : Fastq → Fastq → AlignmentInfo := fun _ _ => alNull

/-- A single-end alignment oracle that never finds an adapter overlap. -/
def alignNoneSE : Fastq → AlignmentInfo := fun _ => alNull

/-- A paired-end alignment oracle reporting a perfect 4-base overlap with no
shift: shift 0, score 4, length 4, no mismatches, adapter pair 0. -/
def alignPerfectOverlap : Fastq → Fastq → AlignmentInfo := fun _ _ => ⟨0, 4, 4, 0, 0, 0⟩

/-- A paired-end alignment oracle reporting a 4-base overlap at shift −1, so
both mates contain adapter bases. -/
def alignOverhang : Fastq → Fastq → AlignmentInfo := fun _ _ => ⟨-1, 3, 4, 0, 0, 0⟩

/-- A consensus-builder oracle that returns mate 1 (its internals are
irrelevant to every claim below). -/
def collapseTakeFirst : AlignmentInfo → Fastq → Fastq → Fastq := fun _ r1 _ => r1

/-- A paired-end test configuration: mate separator `/`, retained lengths 2-100,
mismatch threshold 1/3, no quality/N trimming, no collapsing. -/
def cfgPE : Userconfig :=
  ⟨true, false, '/', 2, 100, 3, 4, 1, 3, false, 2, false, 5, false⟩

/-- `cfgPE` with collapsing enabled (minimum alignment length 4). -/
def cfgPEcollapse : Userconfig :=
  ⟨true, false, '/', 2, 100, 3, 4, 1, 3, false, 2, false, 5, true⟩

/-- A single-end test configuration with collapsing enabled. -/
def cfgSEcollapse : Userconfig :=
  ⟨false, false, '/', 2, 100, 3, 4, 1, 3, false, 2, false, 5, true⟩

/-- Chunk state of the single-end processor at the start of a chunk. -/
def seInit : SEState := ⟨zeroStats, emptyChunk, emptyChunk, emptyChunk, emptyChunk⟩

/-- Chunk state of the paired-end processor at the start of a chunk. -/
def peInit : PEState :=
  ⟨zeroStats, emptyChunk, emptyChunk, emptyChunk, emptyChunk, emptyChunk, emptyChunk⟩

/-- A 4-base mate-1 test read `r/1 ACGT`, acceptable under the test configs. -/
def readM1 : Fastq := ⟨"r/1", ['A', 'C', 'G', 'T'], [30, 30, 30, 30]⟩

/-- A 4-base mate-2 test read `r/2 ACGT`. -/
def readM2 : Fastq := ⟨"r/2", ['A', 'C', 'G', 'T'], [30, 30, 30, 30]⟩

/-- A 1-base mate-1 test read, unacceptable (below the minimum length 2). -/
def readShort1 : Fastq := ⟨"r/1", ['A'], [30]⟩

/-- A 1-base mate-2 test read, unacceptable (below the minimum length 2). -/
def readShort2 : Fastq := ⟨"r/2", ['A'], [30]⟩

/-- A 1-base collapsed-consensus test read, unacceptable under the test
configurations. -/
def readShortM : Fastq := ⟨"m", ['A'], [30]⟩

/-- A mate-1 read whose identifier stem differs from `readM2`. -/
def readOther1 : Fastq := ⟨"q/1", ['A', 'C', 'G', 'T'], [30, 30, 30, 30]⟩

/-- A single demultiplexing sample for the report tests. -/
def sampleA : DemuxSample := ⟨"sample1", "ACGT", ""⟩

/-- Concrete demultiplexing counters: 1 unidentified, 2 ambiguous, 3 hits. -/
def dstatsA : DemuxStatistics := ⟨1, 2, [3]⟩

/-! ## Helper lemmas -/

/-- Trimming a read never changes its identifier. -/
theorem trim_keeps_header (cfg : Userconfig) (r : Fastq) :
    (trim_sequence_by_quality_if_enabled cfg r).snd.header = r.header := by
  simp [trim_sequence_by_quality_if_enabled]

/-- A conditional whose condition is the literal `true`. -/
theorem ite_cond_true {α : Sort u_1} (a b : α) :
    (if (true = true) then a else b) = a := rfl

/-- A conditional whose condition is the literal `false`. -/
theorem ite_cond_false {α : Sort u_1} (a b : α) :
    (if (false = true) then a else b) = b := rfl

/-- The histogram cell addressed by `inc_length_count` rises by one. -/
theorem inc_length_count_self (rt : ReadType) (len : Nat) (s : Statistics) :
    (inc_length_count rt len s).read_lengths len rt
      = s.read_lengths len rt + 1 := by
  simp [inc_length_count]

/-- Histogram cells of any other read class are untouched by
`inc_length_count`. -/
theorem inc_length_count_other (rt c : ReadType) (len l : Nat) (s : Statistics)
    (h : c ≠ rt) :
    (inc_length_count rt len s).read_lengths l c = s.read_lengths l c := by
  simp [inc_length_count, h]

/-- Unfolding of `pe_route_reads` when both trimmed mates are acceptable. -/
theorem pe_route_reads_case_tt (cfg : Userconfig) (st : PEState) (r1 r2rc : Fastq)
    (h1 : is_acceptable_read cfg (trim_sequence_by_quality_if_enabled cfg r1).snd = true)
    (h2 : is_acceptable_read cfg
      (trim_sequence_by_quality_if_enabled cfg (reverse_complement r2rc)).snd = true) :
    pe_route_reads cfg st r1 r2rc =
      { st with
        stats := inc_length_count rt_mate_2
          (trim_sequence_by_quality_if_enabled cfg (reverse_complement r2rc)).snd.length
          (inc_length_count rt_mate_1
            (trim_sequence_by_quality_if_enabled cfg r1).snd.length
            { st.stats with
              total_number_of_nucleotides := st.stats.total_number_of_nucleotides
                + (trim_sequence_by_quality_if_enabled cfg r1).snd.length
                + (trim_sequence_by_quality_if_enabled cfg (reverse_complement r2rc)).snd.length,
              total_number_of_good_reads := st.stats.total_number_of_good_reads + 1 + 1 }),
        out_mate_1 := if cfg.interleaved_output
          then ((st.out_mate_1.add (trim_sequence_by_quality_if_enabled cfg r1).snd 1).add
            (trim_sequence_by_quality_if_enabled cfg (reverse_complement r2rc)).snd 1)
          else st.out_mate_1.add (trim_sequence_by_quality_if_enabled cfg r1).snd 1,
        out_mate_2 := if cfg.interleaved_output then st.out_mate_2
          else st.out_mate_2.add
            (trim_sequence_by_quality_if_enabled cfg (reverse_complement r2rc)).snd 1 } := by
  simp only [pe_route_reads]
  rw [h1, h2]
  rfl

/-- Unfolding of `pe_route_reads` when only the first trimmed mate is
acceptable: note the nucleotide counter still gains both lengths (source
line 558 gates both additions on the first mate). -/
theorem pe_route_reads_case_tf (cfg : Userconfig) (st : PEState) (r1 r2rc : Fastq)
    (h1 : is_acceptable_read cfg (trim_sequence_by_quality_if_enabled cfg r1).snd = true)
    (h2 : is_acceptable_read cfg
      (trim_sequence_by_quality_if_enabled cfg (reverse_complement r2rc)).snd = false) :
    pe_route_reads cfg st r1 r2rc =
      { st with
        stats := inc_length_count rt_discarded
          (trim_sequence_by_quality_if_enabled cfg (reverse_complement r2rc)).snd.length
          (inc_length_count rt_mate_1
            (trim_sequence_by_quality_if_enabled cfg r1).snd.length
            { st.stats with
              total_number_of_nucleotides := st.stats.total_number_of_nucleotides
                + (trim_sequence_by_quality_if_enabled cfg r1).snd.length
                + (trim_sequence_by_quality_if_enabled cfg (reverse_complement r2rc)).snd.length,
              total_number_of_good_reads := st.stats.total_number_of_good_reads + 1,
              keep1 := st.stats.keep1 + 1,
              discard2 := st.stats.discard2 + 1 }),
        out_singleton := st.out_singleton.add
          (trim_sequence_by_quality_if_enabled cfg r1).snd 1,
        out_discarded := st.out_discarded.add
          (trim_sequence_by_quality_if_enabled cfg (reverse_complement r2rc)).snd 1 } := by
  simp only [pe_route_reads]
  rw [h1, h2]
  rfl

/-- Unfolding of `pe_route_reads` when only the second trimmed mate is
acceptable: the nucleotide counter gains nothing (source line 558). -/
theorem pe_route_reads_case_ft (cfg : Userconfig) (st : PEState) (r1 r2rc : Fastq)
    (h1 : is_acceptable_read cfg (trim_sequence_by_quality_if_enabled cfg r1).snd = false)
    (h2 : is_acceptable_read cfg
      (trim_sequence_by_quality_if_enabled cfg (reverse_complement r2rc)).snd = true) :
    pe_route_reads cfg st r1 r2rc =
      { st with
        stats := inc_length_count rt_mate_2
          (trim_sequence_by_quality_if_enabled cfg (reverse_complement r2rc)).snd.length
          (inc_length_count rt_discarded
            (trim_sequence_by_quality_if_enabled cfg r1).snd.length
            { st.stats with
              total_number_of_good_reads := st.stats.total_number_of_good_reads + 1,
              keep2 := st.stats.keep2 + 1,
              discard1 := st.stats.discard1 + 1 }),
        out_singleton := st.out_singleton.add
          (trim_sequence_by_quality_if_enabled cfg (reverse_complement r2rc)).snd 1,
        out_discarded := st.out_discarded.add
          (trim_sequence_by_quality_if_enabled cfg r1).snd 1 } := by
  simp only [pe_route_reads]
  rw [h1, h2]
  rfl

/-- Unfolding of `pe_route_reads` when neither trimmed mate is acceptable. -/
theorem pe_route_reads_case_ff (cfg : Userconfig) (st : PEState) (r1 r2rc : Fastq)
    (h1 : is_acceptable_read cfg (trim_sequence_by_quality_if_enabled cfg r1).snd = false)
    (h2 : is_acceptable_read cfg
      (trim_sequence_by_quality_if_enabled cfg (reverse_complement r2rc)).snd = false) :
    pe_route_reads cfg st r1 r2rc =
      { st with
        stats := inc_length_count rt_discarded
          (trim_sequence_by_quality_if_enabled cfg (reverse_complement r2rc)).snd.length
          (inc_length_count rt_discarded
            (trim_sequence_by_quality_if_enabled cfg r1).snd.length
            { st.stats with
              discard1 := st.stats.discard1 + 1,
              discard2 := st.stats.discard2 + 1 }),
        out_discarded := (st.out_discarded.add
          (trim_sequence_by_quality_if_enabled cfg r1).snd 1).add
          (trim_sequence_by_quality_if_enabled cfg (reverse_complement r2rc)).snd 1 } := by
  simp only [pe_route_reads]
  rw [h1, h2]
  rfl

/-- Unfolding of `process_collapsed_read` when the labelled consensus read
fails the acceptance predicate. -/
theorem process_collapsed_read_case_discarded (cfg : Userconfig)
    (stats : Statistics) (r : Fastq) (c1 c2 c3 : OutputChunk)
    (hacc : is_acceptable_read cfg
      (addPrefixToHeader
        (if decide ((trim_sequence_by_quality_if_enabled cfg r).fst.fst ≠ 0)
            || decide ((trim_sequence_by_quality_if_enabled cfg r).fst.snd ≠ 0)
         then "MT_" else "M_")
        (trim_sequence_by_quality_if_enabled cfg r).snd) = false) :
    process_collapsed_read cfg stats r c1 c2 c3 =
      (addPrefixToHeader
        (if decide ((trim_sequence_by_quality_if_enabled cfg r).fst.fst ≠ 0)
            || decide ((trim_sequence_by_quality_if_enabled cfg r).fst.snd ≠ 0)
         then "MT_" else "M_")
        (trim_sequence_by_quality_if_enabled cfg r).snd,
       inc_length_count rt_discarded
         (addPrefixToHeader
           (if decide ((trim_sequence_by_quality_if_enabled cfg r).fst.fst ≠ 0)
               || decide ((trim_sequence_by_quality_if_enabled cfg r).fst.snd ≠ 0)
            then "MT_" else "M_")
           (trim_sequence_by_quality_if_enabled cfg r).snd).length
         { stats with discard1 := stats.discard1 + 1, discard2 := stats.discard2 + 1 },
       c1, c2,
       c3.add
         (addPrefixToHeader
           (if decide ((trim_sequence_by_quality_if_enabled cfg r).fst.fst ≠ 0)
               || decide ((trim_sequence_by_quality_if_enabled cfg r).fst.snd ≠ 0)
            then "MT_" else "M_")
           (trim_sequence_by_quality_if_enabled cfg r).snd)
         (if cfg.paired_ended_mode then 2 else 1)) := by
  simp only [process_collapsed_read]
  rw [hacc]
  simp only [Bool.false_eq_true, if_false]

/-- Unfolding of `process_collapsed_read` when trimming removed bases and the
labelled consensus read passes the acceptance predicate. -/
theorem process_collapsed_read_case_trunc (cfg : Userconfig)
    (stats : Statistics) (r : Fastq) (c1 c2 c3 : OutputChunk)
    (hw : (decide ((trim_sequence_by_quality_if_enabled cfg r).fst.fst ≠ 0)
        || decide ((trim_sequence_by_quality_if_enabled cfg r).fst.snd ≠ 0)) = true)
    (hacc : is_acceptable_read cfg
      (addPrefixToHeader "MT_" (trim_sequence_by_quality_if_enabled cfg r).snd) = true) :
    process_collapsed_read cfg stats r c1 c2 c3 =
      (addPrefixToHeader "MT_" (trim_sequence_by_quality_if_enabled cfg r).snd,
       { (inc_length_count rt_collapsed_truncated
            (addPrefixToHeader "MT_" (trim_sequence_by_quality_if_enabled cfg r).snd).length
            { stats with
              total_number_of_nucleotides := stats.total_number_of_nucleotides
                + (addPrefixToHeader "MT_"
                    (trim_sequence_by_quality_if_enabled cfg r).snd).length,
              total_number_of_good_reads := stats.total_number_of_good_reads + 1 }) with
         number_of_truncated_collapsed := stats.number_of_truncated_collapsed + 1 },
       c1,
       c2.add (addPrefixToHeader "MT_" (trim_sequence_by_quality_if_enabled cfg r).snd)
         (if cfg.paired_ended_mode then 2 else 1),
       c3) := by
  simp only [process_collapsed_read]
  rw [hw]
  simp only [if_true]
  rw [hacc]
  simp only [if_true]
  rfl

/-- Unfolding of `process_collapsed_read` when trimming removed nothing and
the labelled consensus read passes the acceptance predicate. -/
theorem process_collapsed_read_case_full (cfg : Userconfig)
    (stats : Statistics) (r : Fastq) (c1 c2 c3 : OutputChunk)
    (hw : (decide ((trim_sequence_by_quality_if_enabled cfg r).fst.fst ≠ 0)
        || decide ((trim_sequence_by_quality_if_enabled cfg r).fst.snd ≠ 0)) = false)
    (hacc : is_acceptable_read cfg
      (addPrefixToHeader "M_" (trim_sequence_by_quality_if_enabled cfg r).snd) = true) :
    process_collapsed_read cfg stats r c1 c2 c3 =
      (addPrefixToHeader "M_" (trim_sequence_by_quality_if_enabled cfg r).snd,
       { (inc_length_count rt_collapsed
            (addPrefixToHeader "M_" (trim_sequence_by_quality_if_enabled cfg r).snd).length
            { stats with
              total_number_of_nucleotides := stats.total_number_of_nucleotides
                + (addPrefixToHeader "M_"
                    (trim_sequence_by_quality_if_enabled cfg r).snd).length,
              total_number_of_good_reads := stats.total_number_of_good_reads + 1 }) with
         number_of_full_length_collapsed := stats.number_of_full_length_collapsed + 1 },
       c1.add (addPrefixToHeader "M_" (trim_sequence_by_quality_if_enabled cfg r).snd)
         (if cfg.paired_ended_mode then 2 else 1),
       c2,
       c3) := by
  simp only [process_collapsed_read]
  rw [hw]
  simp only [Bool.false_eq_true, if_false]
  rw [hacc]
  simp only [if_true]
  rfl

/-- The final value of the `collapsed_read` argument of
`process_collapsed_read`: the trimmed read with the `M_`/`MT_` label. -/
theorem process_collapsed_read_fst (cfg : Userconfig) (stats : Statistics)
    (r : Fastq) (c1 c2 c3 : OutputChunk) :
    (process_collapsed_read cfg stats r c1 c2 c3).fst
      = addPrefixToHeader
          (if decide ((trim_sequence_by_quality_if_enabled cfg r).fst.fst ≠ 0)
              || decide ((trim_sequence_by_quality_if_enabled cfg r).fst.snd ≠ 0)
           then "MT_" else "M_")
          (trim_sequence_by_quality_if_enabled cfg r).snd := by
  by_cases hacc : is_acceptable_read cfg
      (addPrefixToHeader
        (if decide ((trim_sequence_by_quality_if_enabled cfg r).fst.fst ≠ 0)
            || decide ((trim_sequence_by_quality_if_enabled cfg r).fst.snd ≠ 0)
         then "MT_" else "M_")
        (trim_sequence_by_quality_if_enabled cfg r).snd) = true
  · by_cases hw : (decide ((trim_sequence_by_quality_if_enabled cfg r).fst.fst ≠ 0)
        || decide ((trim_sequence_by_quality_if_enabled cfg r).fst.snd ≠ 0)) = true
    · rw [hw, ite_cond_true] at hacc
      rw [process_collapsed_read_case_trunc cfg stats r c1 c2 c3 hw hacc, hw,
        ite_cond_true]
    · simp only [Bool.not_eq_true] at hw
      rw [hw, ite_cond_false] at hacc
      rw [process_collapsed_read_case_full cfg stats r c1 c2 c3 hw hacc, hw,
        ite_cond_false]
  · simp only [Bool.not_eq_true] at hacc
    rw [process_collapsed_read_case_discarded cfg stats r c1 c2 c3 hacc]

/-! ## Claim theorems -/

/-- C1: on the non-collapsed paired-end path the code gates the addition of
read 2's nucleotides on `read_1_acceptable` (source line 558).  At this input
read 1 (1 base) fails the acceptance predicate while read 2 (4 bases) passes:
the retained-read counter rises by 1 (`keep2 = 1` shows the retained mate is
read 2) yet the retained-nucleotide counter rises by 0 instead of 4.  At the
mirrored input, where read 1 passes and read 2 fails, the counter rises by 5,
counting the discarded read 2's base. -/
theorem pe_retained_nucleotides_bug :
    ((pe_process_pair cfgPE alignNonePE collapseTakeFirst peInit readShort1 readM2).map
      (fun st => (st.stats.total_number_of_nucleotides,
                  st.stats.total_number_of_good_reads,
                  st.stats.keep2, st.stats.discard1))
      = Except.ok (0, 1, 1, 1))
    ∧ ((pe_process_pair cfgPE alignNonePE collapseTakeFirst peInit readM1 readShort2).map
      (fun st => (st.stats.total_number_of_nucleotides,
                  st.stats.total_number_of_good_reads,
                  st.stats.keep1, st.stats.discard2))
      = Except.ok (5, 1, 1, 1)) := by
  constructor <;> rfl

/-- C3 counterexample: a pair in which only read 1 (4 bases) passes.  The
kept mate is routed to the singleton output (one read there), yet the
singleton read-class of the length histogram stays 0 at length 4; the length
is counted in the mate-1 class instead. -/
theorem singleton_length_class_counterexample :
    ((pe_process_pair cfgPE alignNonePE collapseTakeFirst peInit readM1 readShort2).map
      (fun st => (st.out_singleton.reads.length,
                  st.stats.read_lengths 4 rt_singleton,
                  st.stats.read_lengths 4 rt_mate_1))
      = Except.ok (1, 0, 1)) := by
  rfl

/-- C3 (amended): when exactly one mate of a non-collapsed pair passes the
acceptance predicate, the kept mate's length is counted in the mate-1
(resp. mate-2) read-class of the length histogram, and the singleton
read-class is never touched. -/
theorem singleton_length_counted_as_mate (cfg : Userconfig) (st : PEState)
    (r1 r2rc : Fastq) :
    (is_acceptable_read cfg (trimmedRead cfg r1) = true →
     is_acceptable_read cfg (trimmedRead cfg (reverse_complement r2rc)) = false →
       (pe_route_reads cfg st r1 r2rc).stats.read_lengths
           (trimmedRead cfg r1).length rt_mate_1
         = st.stats.read_lengths (trimmedRead cfg r1).length rt_mate_1 + 1)
    ∧ (is_acceptable_read cfg (trimmedRead cfg r1) = false →
       is_acceptable_read cfg (trimmedRead cfg (reverse_complement r2rc)) = true →
       (pe_route_reads cfg st r1 r2rc).stats.read_lengths
           (trimmedRead cfg (reverse_complement r2rc)).length rt_mate_2
         = st.stats.read_lengths
             (trimmedRead cfg (reverse_complement r2rc)).length rt_mate_2 + 1)
    ∧ ∀ l, (pe_route_reads cfg st r1 r2rc).stats.read_lengths l rt_singleton
         = st.stats.read_lengths l rt_singleton := by
  refine ⟨fun h1 h2 => ?_, fun h1 h2 => ?_, fun l => ?_⟩
  · simp only [trimmedRead] at h1 h2 ⊢
    rw [pe_route_reads_case_tf cfg st r1 r2rc h1 h2]
    dsimp only
    rw [inc_length_count_other rt_discarded rt_mate_1 _ _ _ (by decide),
      inc_length_count_self]
  · simp only [trimmedRead] at h1 h2 ⊢
    rw [pe_route_reads_case_ft cfg st r1 r2rc h1 h2]
    dsimp only
    rw [inc_length_count_self,
      inc_length_count_other rt_discarded rt_mate_2 _ _ _ (by decide)]
  · by_cases ha : is_acceptable_read cfg
        (trim_sequence_by_quality_if_enabled cfg r1).snd = true <;>
      by_cases hb : is_acceptable_read cfg
        (trim_sequence_by_quality_if_enabled cfg (reverse_complement r2rc)).snd = true <;>
      simp only [Bool.not_eq_true] at ha hb
    · rw [pe_route_reads_case_tt cfg st r1 r2rc ha hb]
      dsimp only
      rw [inc_length_count_other rt_mate_2 rt_singleton _ _ _ (by decide),
        inc_length_count_other rt_mate_1 rt_singleton _ _ _ (by decide)]
    · rw [pe_route_reads_case_tf cfg st r1 r2rc ha hb]
      dsimp only
      rw [inc_length_count_other rt_discarded rt_singleton _ _ _ (by decide),
        inc_length_count_other rt_mate_1 rt_singleton _ _ _ (by decide)]
    · rw [pe_route_reads_case_ft cfg st r1 r2rc ha hb]
      dsimp only
      rw [inc_length_count_other rt_mate_2 rt_singleton _ _ _ (by decide),
        inc_length_count_other rt_discarded rt_singleton _ _ _ (by decide)]
    · rw [pe_route_reads_case_ff cfg st r1 r2rc ha hb]
      dsimp only
      rw [inc_length_count_other rt_discarded rt_singleton _ _ _ (by decide),
        inc_length_count_other rt_discarded rt_singleton _ _ _ (by decide)]

/-- C3 (amended) at a concrete input: only read 1 of `readM1`/`readShort2`
passes, and its length is counted in the mate-1 class. -/
theorem singleton_length_counted_as_mate_witness :
    (pe_route_reads cfgPE peInit readM1 readShort2).stats.read_lengths
        (trimmedRead cfgPE readM1).length rt_mate_1
      = peInit.stats.read_lengths (trimmedRead cfgPE readM1).length rt_mate_1 + 1 :=
  (singleton_length_counted_as_mate cfgPE peInit readM1 readShort2).1
    (by decide) (by decide)

/-- `process_collapsed_read` never changes the per-adapter tallies. -/
theorem process_collapsed_read_adapter (cfg : Userconfig) (stats : Statistics)
    (r : Fastq) (c1 c2 c3 : OutputChunk) (i : Nat) :
    (process_collapsed_read cfg stats r c1 c2 c3).snd.fst.number_of_reads_with_adapter i
      = stats.number_of_reads_with_adapter i := by
  by_cases hacc : is_acceptable_read cfg
      (addPrefixToHeader
        (if decide ((trim_sequence_by_quality_if_enabled cfg r).fst.fst ≠ 0)
            || decide ((trim_sequence_by_quality_if_enabled cfg r).fst.snd ≠ 0)
         then "MT_" else "M_")
        (trim_sequence_by_quality_if_enabled cfg r).snd) = true
  · by_cases hw : (decide ((trim_sequence_by_quality_if_enabled cfg r).fst.fst ≠ 0)
        || decide ((trim_sequence_by_quality_if_enabled cfg r).fst.snd ≠ 0)) = true
    · rw [hw, ite_cond_true] at hacc
      rw [process_collapsed_read_case_trunc cfg stats r c1 c2 c3 hw hacc]; rfl
    · simp only [Bool.not_eq_true] at hw
      rw [hw, ite_cond_false] at hacc
      rw [process_collapsed_read_case_full cfg stats r c1 c2 c3 hw hacc]; rfl
  · simp only [Bool.not_eq_true] at hacc
    rw [process_collapsed_read_case_discarded cfg stats r c1 c2 c3 hacc]; rfl

/-- `incAdapter` adds exactly `n` at the bumped index. -/
theorem incAdapter_self (id n : Nat) (s : Statistics) :
    (incAdapter id n s).number_of_reads_with_adapter id
      = s.number_of_reads_with_adapter id + n := by
  simp [incAdapter]

/-- The routing tail of the paired-end body never changes the per-adapter
tallies. -/
theorem pe_route_adapter (cfg : Userconfig) (st : PEState) (r1 r2rc : Fastq)
    (i : Nat) :
    (pe_route_reads cfg st r1 r2rc).stats.number_of_reads_with_adapter i
      = st.stats.number_of_reads_with_adapter i := by
  by_cases ha : is_acceptable_read cfg
      (trim_sequence_by_quality_if_enabled cfg r1).snd = true <;>
    by_cases hb : is_acceptable_read cfg
      (trim_sequence_by_quality_if_enabled cfg (reverse_complement r2rc)).snd = true <;>
    simp only [Bool.not_eq_true] at ha hb
  · rw [pe_route_reads_case_tt cfg st r1 r2rc ha hb]; rfl
  · rw [pe_route_reads_case_tf cfg st r1 r2rc ha hb]; rfl
  · rw [pe_route_reads_case_ft cfg st r1 r2rc ha hb]; rfl
  · rw [pe_route_reads_case_ff cfg st r1 r2rc ha hb]; rfl

/-- C4 counterexample: a good, collapsible alignment with a perfect overlap.
The pair is collapsed (`number_of_full_length_collapsed = 1`,
`well_aligned_reads = 1`) yet the per-adapter tally for its adapter is 0, not
2: truncation removed no bases from either mate. -/
theorem collapsed_adapter_tally_counterexample :
    (pe_process_pair cfgPEcollapse alignPerfectOverlap collapseTakeFirst peInit
        readM1 readM2).map
      (fun st => (st.stats.number_of_reads_with_adapter 0,
                  st.stats.number_of_full_length_collapsed,
                  st.stats.well_aligned_reads))
      = Except.ok (0, 1, 1) := by
  rfl

/-- C4 (amended): for every pair with a good alignment (collapsed or not) the
per-adapter tally of the alignment's adapter is incremented by the number of
mates whose truncation actually removed bases, which is at most 2. -/
theorem collapsed_adapter_tally (cfg : Userconfig)
    (al : Fastq → Fastq → AlignmentInfo) (col : AlignmentInfo → Fastq → Fastq → Fastq)
    (st : PEState) (r1 r2 : Fastq)
    (hval : validate_paired_reads cfg.mate_separator r1 r2 = Except.ok ())
    (hgood : is_good_alignment cfg (al r1 (reverse_complement r2)) = true) :
    (pe_process_pair cfg al col st r1 r2).map
        (fun st2 => st2.stats.number_of_reads_with_adapter
          (al r1 (reverse_complement r2)).adapter_id)
      = Except.ok (st.stats.number_of_reads_with_adapter
            (al r1 (reverse_complement r2)).adapter_id
          + (truncate_paired_ended_sequences (al r1 (reverse_complement r2))
              r1 (reverse_complement r2)).fst)
    ∧ (truncate_paired_ended_sequences (al r1 (reverse_complement r2))
        r1 (reverse_complement r2)).fst ≤ 2 := by
  constructor
  · simp only [pe_process_pair, hval, hgood]
    split
    next =>
      split
      · simp [Except.map, process_collapsed_read_adapter, incAdapter_self]
      · simp [Except.map, pe_route_adapter, incAdapter_self]
    next h1 => exact absurd trivial h1
  · simp only [truncate_paired_ended_sequences]
    split <;> split <;> decide

/-- C4 (amended) at a concrete input: an overhanging good alignment truncates
both mates, so the per-adapter tally of a collapsed pair rises by 2. -/
theorem collapsed_adapter_tally_witness :
    (pe_process_pair cfgPEcollapse alignOverhang collapseTakeFirst peInit
        readM1 readM2).map
        (fun st2 => st2.stats.number_of_reads_with_adapter
          (alignOverhang readM1 (reverse_complement readM2)).adapter_id)
      = Except.ok (peInit.stats.number_of_reads_with_adapter
            (alignOverhang readM1 (reverse_complement readM2)).adapter_id
          + (truncate_paired_ended_sequences
              (alignOverhang readM1 (reverse_complement readM2))
              readM1 (reverse_complement readM2)).fst)
    ∧ (truncate_paired_ended_sequences
        (alignOverhang readM1 (reverse_complement readM2))
        readM1 (reverse_complement readM2)).fst ≤ 2 :=
  collapsed_adapter_tally cfgPEcollapse alignOverhang collapseTakeFirst peInit
    readM1 readM2 (by rfl) (by decide)

/-- C5: a collapsed consensus read that passes the acceptance predicate goes
to the collapsed output when trimming removed no bases (bumping the
full-length counter only) and to the collapsed-truncated output when trimming
removed bases (bumping the truncated counter only); an unacceptable consensus
read goes to the discarded output and bumps neither counter. -/
theorem collapsed_read_routing (cfg : Userconfig) (stats : Statistics)
    (r : Fastq) (c1 c2 c3 : OutputChunk) :
    (is_acceptable_read cfg (process_collapsed_read cfg stats r c1 c2 c3).fst = true →
     (trim_sequence_by_quality_if_enabled cfg r).fst = (0, 0) →
       (process_collapsed_read cfg stats r c1 c2 c3).snd.snd.fst
           = c1.add (process_collapsed_read cfg stats r c1 c2 c3).fst
               (if cfg.paired_ended_mode then 2 else 1)
         ∧ (process_collapsed_read cfg stats r c1 c2 c3).snd.snd.snd.fst = c2
         ∧ (process_collapsed_read cfg stats r c1 c2 c3).snd.snd.snd.snd = c3
         ∧ (process_collapsed_read cfg stats r c1 c2 c3).snd.fst.number_of_full_length_collapsed
           = stats.number_of_full_length_collapsed + 1
         ∧ (process_collapsed_read cfg stats r c1 c2 c3).snd.fst.number_of_truncated_collapsed
           = stats.number_of_truncated_collapsed)
    ∧ (is_acceptable_read cfg (process_collapsed_read cfg stats r c1 c2 c3).fst = true →
       (trim_sequence_by_quality_if_enabled cfg r).fst ≠ (0, 0) →
       (process_collapsed_read cfg stats r c1 c2 c3).snd.snd.snd.fst
           = c2.add (process_collapsed_read cfg stats r c1 c2 c3).fst
               (if cfg.paired_ended_mode then 2 else 1)
         ∧ (process_collapsed_read cfg stats r c1 c2 c3).snd.snd.fst = c1
         ∧ (process_collapsed_read cfg stats r c1 c2 c3).snd.snd.snd.snd = c3
         ∧ (process_collapsed_read cfg stats r c1 c2 c3).snd.fst.number_of_truncated_collapsed
           = stats.number_of_truncated_collapsed + 1
         ∧ (process_collapsed_read cfg stats r c1 c2 c3).snd.fst.number_of_full_length_collapsed
           = stats.number_of_full_length_collapsed)
    ∧ (is_acceptable_read cfg (process_collapsed_read cfg stats r c1 c2 c3).fst = false →
       (process_collapsed_read cfg stats r c1 c2 c3).snd.snd.snd.snd
           = c3.add (process_collapsed_read cfg stats r c1 c2 c3).fst
               (if cfg.paired_ended_mode then 2 else 1)
         ∧ (process_collapsed_read cfg stats r c1 c2 c3).snd.snd.fst = c1
         ∧ (process_collapsed_read cfg stats r c1 c2 c3).snd.snd.snd.fst = c2
         ∧ (process_collapsed_read cfg stats r c1 c2 c3).snd.fst.number_of_full_length_collapsed
           = stats.number_of_full_length_collapsed
         ∧ (process_collapsed_read cfg stats r c1 c2 c3).snd.fst.number_of_truncated_collapsed
           = stats.number_of_truncated_collapsed) := by
  refine ⟨fun h1 h2 => ?_, fun h1 h2 => ?_, fun h1 => ?_⟩
  · have ha : (trim_sequence_by_quality_if_enabled cfg r).fst.fst = 0 := by
      rw [h2]
    have hb : (trim_sequence_by_quality_if_enabled cfg r).fst.snd = 0 := by
      rw [h2]
    have hw : (decide ((trim_sequence_by_quality_if_enabled cfg r).fst.fst ≠ 0)
        || decide ((trim_sequence_by_quality_if_enabled cfg r).fst.snd ≠ 0)) = false := by
      simp [ha, hb]
    rw [process_collapsed_read_fst cfg stats r c1 c2 c3, hw, ite_cond_false] at h1
    rw [process_collapsed_read_case_full cfg stats r c1 c2 c3 hw h1]
    exact ⟨rfl, rfl, rfl, rfl, rfl⟩
  · have hw : (decide ((trim_sequence_by_quality_if_enabled cfg r).fst.fst ≠ 0)
        || decide ((trim_sequence_by_quality_if_enabled cfg r).fst.snd ≠ 0)) = true := by
      rcases Decidable.em ((trim_sequence_by_quality_if_enabled cfg r).fst.fst = 0) with ha | ha
      · rcases Decidable.em ((trim_sequence_by_quality_if_enabled cfg r).fst.snd = 0) with hb | hb
        · exact absurd (Prod.ext ha hb) h2
        · simp [hb]
      · simp [ha]
    rw [process_collapsed_read_fst cfg stats r c1 c2 c3, hw, ite_cond_true] at h1
    rw [process_collapsed_read_case_trunc cfg stats r c1 c2 c3 hw h1]
    exact ⟨rfl, rfl, rfl, rfl, rfl⟩
  · rw [process_collapsed_read_fst cfg stats r c1 c2 c3] at h1
    rw [process_collapsed_read_case_discarded cfg stats r c1 c2 c3 h1]
    exact ⟨rfl, rfl, rfl, rfl, rfl⟩

/-- C6: the header of the processed collapsed consensus read is the original
header with exactly the prefix `M_` prepended when post-collapse trimming
removed no bases from either end, and exactly `MT_` otherwise. -/
theorem collapsed_header_prefix (cfg : Userconfig) (stats : Statistics)
    (r : Fastq) (c1 c2 c3 : OutputChunk) :
    (process_collapsed_read cfg stats r c1 c2 c3).fst.header
      = (if (trim_sequence_by_quality_if_enabled cfg r).fst = (0, 0)
         then "M_" else "MT_") ++ r.header := by
  by_cases ha : (trim_sequence_by_quality_if_enabled cfg r).fst.fst = 0 <;>
    by_cases hb : (trim_sequence_by_quality_if_enabled cfg r).fst.snd = 0 <;>
    simp [process_collapsed_read_fst, addPrefixToHeader, trim_keeps_header,
      ha, hb, Prod.ext_iff]

/-- C10: whenever the collapsed consensus read fails the acceptance predicate,
both the mate-1 and the mate-2 discard counters are incremented, whatever the
configuration (in particular also in single-end mode, where the processor
calls the same `process_collapsed_read`). -/
theorem collapsed_discard_increments_both (cfg : Userconfig)
    (stats : Statistics) (r : Fastq) (c1 c2 c3 : OutputChunk)
    (h : is_acceptable_read cfg (process_collapsed_read cfg stats r c1 c2 c3).fst = false) :
    (process_collapsed_read cfg stats r c1 c2 c3).snd.fst.discard1 = stats.discard1 + 1
    ∧ (process_collapsed_read cfg stats r c1 c2 c3).snd.fst.discard2 = stats.discard2 + 1 := by
  rw [process_collapsed_read_fst] at h
  simp only [ne_eq, Bool.or_eq_true, decide_eq_true_eq] at h
  simp [process_collapsed_read, h, inc_length_count]

/-- C10 at a concrete single-end input: `cfgSEcollapse` has
`paired_ended_mode = false`, yet discarding the unacceptable collapsed read
bumps both discard counters. -/
theorem collapsed_discard_increments_both_witness :
    (process_collapsed_read cfgSEcollapse zeroStats readShortM
        emptyChunk emptyChunk emptyChunk).snd.fst.discard1 = zeroStats.discard1 + 1
    ∧ (process_collapsed_read cfgSEcollapse zeroStats readShortM
        emptyChunk emptyChunk emptyChunk).snd.fst.discard2 = zeroStats.discard2 + 1 :=
  collapsed_discard_increments_both cfgSEcollapse zeroStats readShortM
    emptyChunk emptyChunk emptyChunk (by decide)

/-- C5 at a concrete input: an acceptable, untrimmed consensus read goes to
the collapsed output and bumps only the full-length counter. -/
theorem collapsed_read_routing_witness :
    (process_collapsed_read cfgSEcollapse zeroStats readM1
        emptyChunk emptyChunk emptyChunk).snd.snd.fst
      = emptyChunk.add
          (process_collapsed_read cfgSEcollapse zeroStats readM1
            emptyChunk emptyChunk emptyChunk).fst
          (if cfgSEcollapse.paired_ended_mode then 2 else 1)
    ∧ (process_collapsed_read cfgSEcollapse zeroStats readM1
        emptyChunk emptyChunk emptyChunk).snd.snd.snd.fst = emptyChunk
    ∧ (process_collapsed_read cfgSEcollapse zeroStats readM1
        emptyChunk emptyChunk emptyChunk).snd.snd.snd.snd = emptyChunk
    ∧ (process_collapsed_read cfgSEcollapse zeroStats readM1
        emptyChunk emptyChunk emptyChunk).snd.fst.number_of_full_length_collapsed
      = zeroStats.number_of_full_length_collapsed + 1
    ∧ (process_collapsed_read cfgSEcollapse zeroStats readM1
        emptyChunk emptyChunk emptyChunk).snd.fst.number_of_truncated_collapsed
      = zeroStats.number_of_truncated_collapsed :=
  (collapsed_read_routing cfgSEcollapse zeroStats readM1
    emptyChunk emptyChunk emptyChunk).1 (by decide) (by decide)

/-- C2: routing of a non-collapsed pair after quality/N trimming.  Both mates
acceptable: read 1 to the mate-1 output and read 2 to the mate-2 output, or
appended to the mate-1 output under interleaved output.  Exactly one mate
acceptable: the passing mate to the singleton output, the failing mate to the
discarded output, with the keep/discard counters of the respective mates
incremented.  Neither acceptable: both mates to the discarded output. -/
theorem pe_noncollapsed_routing (cfg : Userconfig) (st : PEState)
    (r1 r2rc : Fastq) :
    (is_acceptable_read cfg (trimmedRead cfg r1) = true →
     is_acceptable_read cfg (trimmedRead cfg (reverse_complement r2rc)) = true →
       (pe_route_reads cfg st r1 r2rc).out_mate_1.reads
           = st.out_mate_1.reads ++ [trimmedRead cfg r1]
             ++ (if cfg.interleaved_output
                 then [trimmedRead cfg (reverse_complement r2rc)] else [])
         ∧ (pe_route_reads cfg st r1 r2rc).out_mate_2.reads
           = st.out_mate_2.reads
             ++ (if cfg.interleaved_output
                 then [] else [trimmedRead cfg (reverse_complement r2rc)])
         ∧ (pe_route_reads cfg st r1 r2rc).out_singleton = st.out_singleton
         ∧ (pe_route_reads cfg st r1 r2rc).out_discarded = st.out_discarded
         ∧ (pe_route_reads cfg st r1 r2rc).stats.keep1 = st.stats.keep1
         ∧ (pe_route_reads cfg st r1 r2rc).stats.keep2 = st.stats.keep2
         ∧ (pe_route_reads cfg st r1 r2rc).stats.discard1 = st.stats.discard1
         ∧ (pe_route_reads cfg st r1 r2rc).stats.discard2 = st.stats.discard2)
    ∧ (is_acceptable_read cfg (trimmedRead cfg r1) = true →
       is_acceptable_read cfg (trimmedRead cfg (reverse_complement r2rc)) = false →
       (pe_route_reads cfg st r1 r2rc).out_singleton.reads
           = st.out_singleton.reads ++ [trimmedRead cfg r1]
         ∧ (pe_route_reads cfg st r1 r2rc).out_discarded.reads
           = st.out_discarded.reads ++ [trimmedRead cfg (reverse_complement r2rc)]
         ∧ (pe_route_reads cfg st r1 r2rc).out_mate_1 = st.out_mate_1
         ∧ (pe_route_reads cfg st r1 r2rc).out_mate_2 = st.out_mate_2
         ∧ (pe_route_reads cfg st r1 r2rc).stats.keep1 = st.stats.keep1 + 1
         ∧ (pe_route_reads cfg st r1 r2rc).stats.keep2 = st.stats.keep2
         ∧ (pe_route_reads cfg st r1 r2rc).stats.discard1 = st.stats.discard1
         ∧ (pe_route_reads cfg st r1 r2rc).stats.discard2 = st.stats.discard2 + 1)
    ∧ (is_acceptable_read cfg (trimmedRead cfg r1) = false →
       is_acceptable_read cfg (trimmedRead cfg (reverse_complement r2rc)) = true →
       (pe_route_reads cfg st r1 r2rc).out_singleton.reads
           = st.out_singleton.reads ++ [trimmedRead cfg (reverse_complement r2rc)]
         ∧ (pe_route_reads cfg st r1 r2rc).out_discarded.reads
           = st.out_discarded.reads ++ [trimmedRead cfg r1]
         ∧ (pe_route_reads cfg st r1 r2rc).out_mate_1 = st.out_mate_1
         ∧ (pe_route_reads cfg st r1 r2rc).out_mate_2 = st.out_mate_2
         ∧ (pe_route_reads cfg st r1 r2rc).stats.keep1 = st.stats.keep1
         ∧ (pe_route_reads cfg st r1 r2rc).stats.keep2 = st.stats.keep2 + 1
         ∧ (pe_route_reads cfg st r1 r2rc).stats.discard1 = st.stats.discard1 + 1
         ∧ (pe_route_reads cfg st r1 r2rc).stats.discard2 = st.stats.discard2)
    ∧ (is_acceptable_read cfg (trimmedRead cfg r1) = false →
       is_acceptable_read cfg (trimmedRead cfg (reverse_complement r2rc)) = false →
       (pe_route_reads cfg st r1 r2rc).out_discarded.reads
           = st.out_discarded.reads
             ++ [trimmedRead cfg r1, trimmedRead cfg (reverse_complement r2rc)]
         ∧ (pe_route_reads cfg st r1 r2rc).out_singleton = st.out_singleton
         ∧ (pe_route_reads cfg st r1 r2rc).out_mate_1 = st.out_mate_1
         ∧ (pe_route_reads cfg st r1 r2rc).out_mate_2 = st.out_mate_2
         ∧ (pe_route_reads cfg st r1 r2rc).stats.keep1 = st.stats.keep1
         ∧ (pe_route_reads cfg st r1 r2rc).stats.keep2 = st.stats.keep2
         ∧ (pe_route_reads cfg st r1 r2rc).stats.discard1 = st.stats.discard1 + 1
         ∧ (pe_route_reads cfg st r1 r2rc).stats.discard2 = st.stats.discard2 + 1) := by
  refine ⟨fun h1 h2 => ?_, fun h1 h2 => ?_, fun h1 h2 => ?_, fun h1 h2 => ?_⟩ <;>
    simp only [trimmedRead] at h1 h2 ⊢
  · rw [pe_route_reads_case_tt cfg st r1 r2rc h1 h2]
    by_cases hil : cfg.interleaved_output = true
    · rw [hil]
      simp only [if_true]
      exact ⟨rfl, (List.append_nil _).symm, trivial, trivial, rfl, rfl, rfl, rfl⟩
    · simp only [Bool.not_eq_true] at hil
      rw [hil]
      simp only [Bool.false_eq_true, if_false]
      exact ⟨(List.append_nil _).symm, rfl, trivial, trivial, rfl, rfl, rfl, rfl⟩
  · rw [pe_route_reads_case_tf cfg st r1 r2rc h1 h2]
    exact ⟨rfl, rfl, rfl, rfl, rfl, rfl, rfl, rfl⟩
  · rw [pe_route_reads_case_ft cfg st r1 r2rc h1 h2]
    exact ⟨rfl, rfl, rfl, rfl, rfl, rfl, rfl, rfl⟩
  · rw [pe_route_reads_case_ff cfg st r1 r2rc h1 h2]
    exact ⟨List.append_assoc _ _ _, rfl, rfl, rfl, rfl, rfl, rfl, rfl⟩

/-- C2 at a concrete input: only read 1 of `readM1`/`readShort2` passes, so it
is routed to the singleton output, the failing mate to the discarded output,
and `keep1`/`discard2` are incremented. -/
theorem pe_noncollapsed_routing_witness :
    (pe_route_reads cfgPE peInit readM1 readShort2).out_singleton.reads
        = peInit.out_singleton.reads ++ [trimmedRead cfgPE readM1]
      ∧ (pe_route_reads cfgPE peInit readM1 readShort2).out_discarded.reads
        = peInit.out_discarded.reads
          ++ [trimmedRead cfgPE (reverse_complement readShort2)]
      ∧ (pe_route_reads cfgPE peInit readM1 readShort2).out_mate_1 = peInit.out_mate_1
      ∧ (pe_route_reads cfgPE peInit readM1 readShort2).out_mate_2 = peInit.out_mate_2
      ∧ (pe_route_reads cfgPE peInit readM1 readShort2).stats.keep1
        = peInit.stats.keep1 + 1
      ∧ (pe_route_reads cfgPE peInit readM1 readShort2).stats.keep2
        = peInit.stats.keep2
      ∧ (pe_route_reads cfgPE peInit readM1 readShort2).stats.discard1
        = peInit.stats.discard1
      ∧ (pe_route_reads cfgPE peInit readM1 readShort2).stats.discard2
        = peInit.stats.discard2 + 1 :=
  (pe_noncollapsed_routing cfgPE peInit readM1 readShort2).2.1
    (by decide) (by decide)

/-- A pair whose headers validate is always processed successfully: the only
error source of the per-pair body is the mate-pair validation. -/
theorem pe_process_pair_ok (cfg : Userconfig)
    (al : Fastq → Fastq → AlignmentInfo) (col : AlignmentInfo → Fastq → Fastq → Fastq)
    (st : PEState) (r1 r2 : Fastq)
    (h : validate_paired_reads cfg.mate_separator r1 r2 = Except.ok ()) :
    ∃ st2, pe_process_pair cfg al col st r1 r2 = Except.ok st2 := by
  simp only [pe_process_pair, h]
  split
  · split
    · exact ⟨_, rfl⟩
    · exact ⟨_, rfl⟩
  · exact ⟨_, rfl⟩

/-- C9: mate-pair headers are validated before alignment; the first mismatch
aborts the chunk.  If every pair before a mismatching pair validates, the
whole chunk run returns the mate-pair-mismatch error — for every alignment
and consensus oracle, so no alignment, truncation, or output is produced for
the mismatching pair or any later pair. -/
theorem mate_mismatch_fails_chunk (cfg : Userconfig)
    (al : Fastq → Fastq → AlignmentInfo) (col : AlignmentInfo → Fastq → Fastq → Fastq)
    (st : PEState) (pre rest : List (Fastq × Fastq)) (r1 r2 : Fastq)
    (hpre : ∀ p ∈ pre, validate_paired_reads cfg.mate_separator p.fst p.snd = Except.ok ())
    (hbad : validate_paired_reads cfg.mate_separator r1 r2
      = Except.error ProcErr.matePairMismatch) :
    pe_process_pairs cfg al col st (pre ++ (r1, r2) :: rest)
      = Except.error ProcErr.matePairMismatch := by
  induction pre generalizing st with
  | nil =>
    simp only [List.nil_append, pe_process_pairs]
    simp only [pe_process_pair, hbad]
  | cons p pre ih =>
    have hp := hpre p (List.mem_cons_self p pre)
    obtain ⟨st2, hst2⟩ := pe_process_pair_ok cfg al col st p.fst p.snd hp
    simp only [List.cons_append, pe_process_pairs, hst2]
    exact ih st2 (fun q hq => hpre q (List.mem_cons_of_mem p hq))

/-- C9 at a concrete input: a chunk whose only pair has mismatching
identifier stems is rejected. -/
theorem mate_mismatch_fails_chunk_witness :
    pe_process_pairs cfgPE alignNonePE collapseTakeFirst peInit
        ([] ++ (readOther1, readM2) :: [])
      = Except.error ProcErr.matePairMismatch :=
  mate_mismatch_fails_chunk cfgPE alignNonePE collapseTakeFirst peInit
    [] [] readOther1 readM2 (fun p hp => absurd hp (List.not_mem_nil p)) (by rfl)

/-- C8: shape of the `[Demultiplexing statistics]` table for an enabled
demultiplexer with at least one classified read.  In order: the header row,
the `unidentified` row, the `ambiguous` row, one row per sample carrying its
barcodes and hit count, and the `*`-totals row; every row's fraction is its
hit count divided by the total, the totals row's fraction included (it prints
as `1.000`). -/
theorem demux_report_shape (samples : List DemuxSample) (stats : DemuxStatistics)
    (hlen : samples.length = stats.barcodes.length) (htot : 0 < stats.total) :
    demuxHeader = ["Name", "Barcode_1", "Barcode_2", "Hits", "Fraction"]
    ∧ demuxRows samples stats
        = ⟨"unidentified", "NA", "NA", stats.unidentified,
            (stats.unidentified : ℚ) / (stats.total : ℚ)⟩
          :: ⟨"ambiguous", "NA", "NA", stats.ambiguous,
            (stats.ambiguous : ℚ) / (stats.total : ℚ)⟩
          :: ((samples.zip stats.barcodes).map fun p =>
               ⟨p.fst.name, p.fst.barcode_1,
                if p.fst.barcode_2.isEmpty then "*" else p.fst.barcode_2,
                p.snd, (p.snd : ℚ) / (stats.total : ℚ)⟩)
          ++ [⟨"*", "*", "*", stats.total, (stats.total : ℚ) / (stats.total : ℚ)⟩]
    ∧ (samples.zip stats.barcodes).length = samples.length
    ∧ (demuxRows samples stats).length = samples.length + 3
    ∧ ∀ row ∈ demuxRows samples stats,
        row.fraction = (row.hits : ℚ) / (stats.total : ℚ) := by
  have hne : (stats.total : ℚ) ≠ 0 :=
    Nat.cast_ne_zero.mpr (Nat.pos_iff_ne_zero.mp htot)
  refine ⟨rfl, ?_, ?_, ?_, ?_⟩
  · simp [demuxRows, div_self hne]
  · simp [List.length_zip, hlen]
  · simp [demuxRows, List.length_zip, hlen]
  · intro row hrow
    simp only [demuxRows, List.mem_cons, List.mem_append, List.mem_map,
      List.mem_singleton] at hrow
    rcases hrow with (h | h | ⟨p, hp, h⟩) | h | h <;>
      first
      | (subst h; simp [div_self hne])
      | exact absurd h (List.not_mem_nil row)

/-- C8 at a concrete input: one single-indexed sample with 3 hits,
1 unidentified and 2 ambiguous reads (total 6). -/
theorem demux_report_shape_witness :
    demuxRows [sampleA] dstatsA
      = ⟨"unidentified", "NA", "NA", dstatsA.unidentified,
          (dstatsA.unidentified : ℚ) / (dstatsA.total : ℚ)⟩
        :: ⟨"ambiguous", "NA", "NA", dstatsA.ambiguous,
          (dstatsA.ambiguous : ℚ) / (dstatsA.total : ℚ)⟩
        :: (([sampleA].zip dstatsA.barcodes).map fun p =>
             ⟨p.fst.name, p.fst.barcode_1,
              if p.fst.barcode_2.isEmpty then "*" else p.fst.barcode_2,
              p.snd, (p.snd : ℚ) / (dstatsA.total : ℚ)⟩)
        ++ [⟨"*", "*", "*", dstatsA.total,
             (dstatsA.total : ℚ) / (dstatsA.total : ℚ)⟩] :=
  (demux_report_shape [sampleA] dstatsA (by decide) (by decide)).2.1

/-- `process_collapsed_read` touches the length histogram only in the
collapsed, collapsed-truncated, and discarded classes. -/
theorem process_collapsed_read_lengths (cfg : Userconfig) (stats : Statistics)
    (r : Fastq) (c1 c2 c3 : OutputChunk) (l : Nat) (c : ReadType)
    (h1 : c ≠ rt_collapsed) (h2 : c ≠ rt_collapsed_truncated)
    (h3 : c ≠ rt_discarded) :
    (process_collapsed_read cfg stats r c1 c2 c3).snd.fst.read_lengths l c
      = stats.read_lengths l c := by
  by_cases hacc : is_acceptable_read cfg
      (addPrefixToHeader
        (if decide ((trim_sequence_by_quality_if_enabled cfg r).fst.fst ≠ 0)
            || decide ((trim_sequence_by_quality_if_enabled cfg r).fst.snd ≠ 0)
         then "MT_" else "M_")
        (trim_sequence_by_quality_if_enabled cfg r).snd) = true
  · by_cases hw : (decide ((trim_sequence_by_quality_if_enabled cfg r).fst.fst ≠ 0)
        || decide ((trim_sequence_by_quality_if_enabled cfg r).fst.snd ≠ 0)) = true
    · rw [hw, ite_cond_true] at hacc
      rw [process_collapsed_read_case_trunc cfg stats r c1 c2 c3 hw hacc]
      simp [inc_length_count, h2]
    · simp only [Bool.not_eq_true] at hw
      rw [hw, ite_cond_false] at hacc
      rw [process_collapsed_read_case_full cfg stats r c1 c2 c3 hw hacc]
      simp [inc_length_count, h1]
  · simp only [Bool.not_eq_true] at hacc
    rw [process_collapsed_read_case_discarded cfg stats r c1 c2 c3 hacc]
    simp [inc_length_count, h3]

/-- The single-end routing tail touches the length histogram only in the
mate-1 and discarded classes. -/
theorem se_finish_read_lengths (cfg : Userconfig) (st : SEState) (r : Fastq)
    (l : Nat) (c : ReadType) (h1 : c ≠ rt_mate_1) (h2 : c ≠ rt_discarded) :
    (se_finish cfg st r).stats.read_lengths l c = st.stats.read_lengths l c := by
  simp only [se_finish]
  split <;> simp [inc_length_count, h1, h2]

/-- A collapsible alignment implies collapsing is enabled. -/
theorem collapsible_implies_collapse (cfg : Userconfig) (a : AlignmentInfo)
    (h : is_alignment_collapsible cfg a = true) : cfg.collapse = true := by
  simp only [is_alignment_collapsible, Bool.and_eq_true] at h
  exact h.1

/-- The single-end per-read body touches the length histogram only in the
mate-1 and discarded classes, plus the collapsed classes when collapsing is
enabled. -/
theorem se_step_read_lengths (cfg : Userconfig) (al : Fastq → AlignmentInfo)
    (st : SEState) (r : Fastq) (l : Nat) (c : ReadType)
    (h1 : c ≠ rt_mate_1) (h2 : c ≠ rt_discarded)
    (h3 : cfg.collapse = true → c ≠ rt_collapsed ∧ c ≠ rt_collapsed_truncated) :
    (se_process_read cfg al st r).stats.read_lengths l c
      = st.stats.read_lengths l c := by
  simp only [se_process_read]
  split
  · split
    next hcol =>
      obtain ⟨hx, hy⟩ := h3 (collapsible_implies_collapse cfg (al r) hcol)
      simp [process_collapsed_read_lengths cfg _ _ _ _ _ l c hx hy h2, incAdapter]
    next =>
      rw [se_finish_read_lengths cfg _ _ l c h1 h2]
      simp [incAdapter]
  · rw [se_finish_read_lengths cfg _ _ l c h1 h2]

/-- The paired-end routing tail touches the length histogram only in the
mate-1, mate-2, and discarded classes. -/
theorem pe_route_read_lengths (cfg : Userconfig) (st : PEState)
    (r1 r2rc : Fastq) (l : Nat) (c : ReadType)
    (h1 : c ≠ rt_mate_1) (h2 : c ≠ rt_mate_2) (h3 : c ≠ rt_discarded) :
    (pe_route_reads cfg st r1 r2rc).stats.read_lengths l c
      = st.stats.read_lengths l c := by
  by_cases ha : is_acceptable_read cfg
      (trim_sequence_by_quality_if_enabled cfg r1).snd = true <;>
    by_cases hb : is_acceptable_read cfg
      (trim_sequence_by_quality_if_enabled cfg (reverse_complement r2rc)).snd = true <;>
    simp only [Bool.not_eq_true] at ha hb
  · rw [pe_route_reads_case_tt cfg st r1 r2rc ha hb]
    dsimp only
    rw [inc_length_count_other rt_mate_2 c _ _ _ h2,
      inc_length_count_other rt_mate_1 c _ _ _ h1]
  · rw [pe_route_reads_case_tf cfg st r1 r2rc ha hb]
    dsimp only
    rw [inc_length_count_other rt_discarded c _ _ _ h3,
      inc_length_count_other rt_mate_1 c _ _ _ h1]
  · rw [pe_route_reads_case_ft cfg st r1 r2rc ha hb]
    dsimp only
    rw [inc_length_count_other rt_mate_2 c _ _ _ h2,
      inc_length_count_other rt_discarded c _ _ _ h3]
  · rw [pe_route_reads_case_ff cfg st r1 r2rc ha hb]
    dsimp only
    rw [inc_length_count_other rt_discarded c _ _ _ h3,
      inc_length_count_other rt_discarded c _ _ _ h3]

/-- The paired-end per-pair body touches the length histogram only in the
mate-1, mate-2, and discarded classes, plus the collapsed classes when
collapsing is enabled. -/
theorem pe_pair_read_lengths (cfg : Userconfig)
    (al : Fastq → Fastq → AlignmentInfo) (col : AlignmentInfo → Fastq → Fastq → Fastq)
    (st : PEState) (r1 r2 : Fastq) (st2 : PEState)
    (hok : pe_process_pair cfg al col st r1 r2 = Except.ok st2)
    (l : Nat) (c : ReadType)
    (h1 : c ≠ rt_mate_1) (h2 : c ≠ rt_mate_2) (h3 : c ≠ rt_discarded)
    (h4 : cfg.collapse = true → c ≠ rt_collapsed ∧ c ≠ rt_collapsed_truncated) :
    st2.stats.read_lengths l c = st.stats.read_lengths l c := by
  cases hv : validate_paired_reads cfg.mate_separator r1 r2 with
  | error e =>
    simp only [pe_process_pair, hv] at hok
    exact absurd hok (by simp)
  | ok u =>
    cases u
    simp only [pe_process_pair, hv] at hok
    split at hok
    · split at hok
      next hcol =>
        obtain ⟨hx, hy⟩ := h4 (collapsible_implies_collapse cfg _ hcol)
        obtain rfl := (Except.ok.inj hok).symm
        simp [process_collapsed_read_lengths cfg _ _ _ _ _ l c hx hy h3, incAdapter]
      next =>
        obtain rfl := (Except.ok.inj hok).symm
        rw [pe_route_read_lengths cfg _ _ _ l c h1 h2 h3]
        simp [incAdapter]
    · obtain rfl := (Except.ok.inj hok).symm
      rw [pe_route_read_lengths cfg _ _ _ l c h1 h2 h3]

/-- In every reachable statistics instance the singleton class of the length
histogram is zero; the mate-2 class is zero in single-end mode; and the
collapsed classes are zero when collapsing is disabled. -/
theorem reachable_read_lengths_zero (cfg : Userconfig) (s : Statistics)
    (h : ReachableStats cfg s) :
    ∀ l, s.read_lengths l rt_singleton = 0
      ∧ (cfg.paired_ended_mode = false → s.read_lengths l rt_mate_2 = 0)
      ∧ (cfg.collapse = false → s.read_lengths l rt_collapsed = 0
          ∧ s.read_lengths l rt_collapsed_truncated = 0) := by
  induction h with
  | init => intro l; exact ⟨rfl, fun _ => rfl, fun _ => ⟨rfl, rfl⟩⟩
  | seStep al st r hpaired hr ih =>
    intro l
    refine ⟨?_, fun hp => ?_, fun hc => ⟨?_, ?_⟩⟩
    · rw [se_step_read_lengths cfg al st r l rt_singleton (by decide) (by decide)
        (fun _ => ⟨by decide, by decide⟩)]
      exact (ih l).1
    · rw [se_step_read_lengths cfg al st r l rt_mate_2 (by decide) (by decide)
        (fun _ => ⟨by decide, by decide⟩)]
      exact (ih l).2.1 hp
    · rw [se_step_read_lengths cfg al st r l rt_collapsed (by decide) (by decide)
        (fun hcc => by rw [hc] at hcc; exact absurd hcc (by decide))]
      exact ((ih l).2.2 hc).1
    · rw [se_step_read_lengths cfg al st r l rt_collapsed_truncated (by decide)
        (by decide) (fun hcc => by rw [hc] at hcc; exact absurd hcc (by decide))]
      exact ((ih l).2.2 hc).2
  | peStep al col st r1 r2 st2 hpaired hr hok ih =>
    intro l
    refine ⟨?_, fun hp => ?_, fun hc => ⟨?_, ?_⟩⟩
    · rw [pe_pair_read_lengths cfg al col st r1 r2 st2 hok l rt_singleton
        (by decide) (by decide) (by decide) (fun _ => ⟨by decide, by decide⟩)]
      exact (ih l).1
    · rw [hpaired] at hp
      exact absurd hp (by decide)
    · rw [pe_pair_read_lengths cfg al col st r1 r2 st2 hok l rt_collapsed
        (by decide) (by decide) (by decide)
        (fun hcc => by rw [hc] at hcc; exact absurd hcc (by decide))]
      exact ((ih l).2.2 hc).1
    · rw [pe_pair_read_lengths cfg al col st r1 r2 st2 hok l rt_collapsed_truncated
        (by decide) (by decide) (by decide)
        (fun hcc => by rw [hc] at hcc; exact absurd hcc (by decide))]
      exact ((ih l).2.2 hc).2
  | recordsStep s n hr ih =>
    intro l
    exact ih l
  | reduceStep s t hs ht ihs iht =>
    intro l
    refine ⟨?_, fun hp => ?_, fun hc => ⟨?_, ?_⟩⟩ <;>
      simp only [statsAdd]
    · rw [(ihs l).1, (iht l).1]
    · rw [(ihs l).2.1 hp, (iht l).2.1 hp]
    · rw [((ihs l).2.2 hc).1, ((iht l).2.2 hc).1]
    · rw [((ihs l).2.2 hc).2, ((iht l).2.2 hc).2]

/-- C7: in every reachable statistics instance, for every length row of the
`[Length distribution]` table, the sum of the per-read-class values printed
for the active configuration equals the `All` value, which sums all classes —
the classes whose columns are omitted are identically zero. -/
theorem length_distribution_row_sum (cfg : Userconfig) (s : Statistics)
    (h : ReachableStats cfg s) (l : Nat) :
    printedRowSum cfg s l = rowAll s l := by
  obtain ⟨h1, h2, h3⟩ := reachable_read_lengths_zero cfg s h l
  unfold printedRowSum rowAll
  cases hp : cfg.paired_ended_mode with
  | false =>
    cases hc : cfg.collapse with
    | false => simp [hp, hc, h1, h2 hp, (h3 hc).1, (h3 hc).2]
    | true =>
      simp [hp, hc, h1, h2 hp]
      try omega
  | true =>
    cases hc : cfg.collapse with
    | false =>
      simp [hp, hc, h1, (h3 hc).1, (h3 hc).2]
      try omega
    | true =>
      simp [hp, hc, h1]
      try omega

/-- C7 at a concrete input: the row sums agree after one single-end step
under a collapsing-enabled single-end configuration. -/
theorem length_distribution_row_sum_witness :
    printedRowSum cfgSEcollapse
        (se_process_read cfgSEcollapse alignNoneSE seInit readM1).stats 4
      = rowAll (se_process_read cfgSEcollapse alignNoneSE seInit readM1).stats 4 :=
  length_distribution_row_sum cfgSEcollapse
    (se_process_read cfgSEcollapse alignNoneSE seInit readM1).stats
    (ReachableStats.seStep alignNoneSE seInit readM1 rfl ReachableStats.init) 4

end AdapterRemoval
